import Mathlib

/-!
Shallow embedding of the JARVIS backend (Sangam386/jarves), covering the
model-orchestration core: `backend/utils/model_manager.py` (the `ModelManager`
class), the chat/session endpoints of `backend/main.py`, and the per-task
model-preference lookup of `backend/config.py`.

HTTP calls and the local runtime are modelled by oracles: booleans for the
health check (`check_ollama_status`) and the start attempt (`start_ollama`),
a numeric HTTP status code, and the already-JSON-decoded protocol lines the
runtime would emit on a streaming endpoint.  A newline-delimited protocol
line is represented at the decoding granularity the Python code
distinguishes: an empty line (skipped by `if line:`), a line on which
`json.loads` raises `JSONDecodeError` (the `except` arm), or a decoded
object carrying exactly the fields the code reads.  The embedding covers
the executions in which no transport exception escapes the `httpx` calls;
the outer `except Exception` arms (which return the failure value) are
noted per definition.
-/

namespace Jarves

/-- One message of a session history.  `main.py` stores each turn as the dict
`{"role": ..., "content": ..., "timestamp": ...}`; all three values are
strings. -/
structure Message where
  role : String
  content : String
  timestamp : String
deriving Repr, DecidableEq

/-- Lowercasing used to model Python's `str.lower()` on the status / probe
strings that the code inspects (all ASCII in practice). -/
def lowerChars (s : String) : List Char :=
  s.toList.map Char.toLower

/-- Character-list infix test, modelling Python's `needle in haystack`
substring operator. -/
def isInfixChars : List Char → List Char → Bool
  | needle, [] => needle.isEmpty
  | needle, c :: rest => needle.isPrefixOf (c :: rest) || isInfixChars needle rest

/-- Python's `needle in s.lower()` for a lowercase literal `needle`. -/
def containsLowered (needle s : String) : Bool :=
  isInfixChars needle.toList (lowerChars s)

/-- A decoded line of the `/api/pull` event stream.  The code reads only the
`status` field (`data.get("status", "")` and `data.get("status")`), so a
decoded object is represented by its optional `status` field. -/
inductive PullLine where
  | empty : PullLine
  | malformed : PullLine
  | event (status : Option String) : PullLine
deriving Repr, DecidableEq

/-- The `async for line in response.aiter_lines()` loop of `pull_model`
(`model_manager.py` lines 111-122, followed by the `return True` on line
127 when the stream is exhausted): empty lines are skipped, undecodable
lines hit `continue`, and a decoded event returns `True` when
`"success" in status.lower()` or the `status` field equals `"success"`. -/
def pullLoop : List PullLine → Bool
  | [] => true
  | PullLine.empty :: rest => pullLoop rest
  | PullLine.malformed :: rest => pullLoop rest
  | PullLine.event status :: rest =>
    if containsLowered "success" (status.getD "") || status == some "success" then
      true
    else
      pullLoop rest

/-- `ModelManager.pull_model` (`model_manager.py` lines 95-131).  `checkOk`
models `check_ollama_status()`, `startOk` models `start_ollama()`,
`httpStatus` the `/api/pull` response status, `lines` the decoded event
stream.  The outer `except` arm (transport exception → `False`) is outside
this exception-free embedding. -/
def pull_model (checkOk startOk : Bool) (httpStatus : Nat) (lines : List PullLine) : Bool :=
  if checkOk = false ∧ startOk = false then
    false
  else if httpStatus = 200 then
    pullLoop lines
  else
    false

/-- A decoded line of the streaming `/api/generate` event stream.  The code
reads the `response` field (presence-tested by `"response" in data`) and
`data.get("done", False)`. -/
inductive StreamLine where
  | empty : StreamLine
  | malformed : StreamLine
  | event (response : Option String) (done : Bool) : StreamLine
deriving Repr, DecidableEq

/-- The `async for` loop of `generate_streaming_response`
(`model_manager.py` lines 243-253): skip empty lines, `continue` on
undecodable lines, yield `data["response"]` whenever the field is present,
and `break` when `data.get("done", False)` is truthy (after the yield). -/
def streamLoop : List StreamLine → List String
  | [] => []
  | StreamLine.empty :: rest => streamLoop rest
  | StreamLine.malformed :: rest => streamLoop rest
  | StreamLine.event response done :: rest =>
    let chunks := match response with
      | some r => [r]
      | none => []
    if done then chunks else chunks ++ streamLoop rest

/-- `ModelManager.generate_streaming_response` (`model_manager.py` lines
207-259), returning the list of yielded chunks.  The `except` arm (yield
`"Error: ..."` on a transport exception) is outside this exception-free
embedding. -/
def generate_streaming_response (checkOk startOk : Bool) (httpStatus : Nat)
    (lines : List StreamLine) : List String :=
  if checkOk = false ∧ startOk = false then
    ["Error: Ollama service is not available"]
  else if httpStatus = 200 then
    streamLoop lines
  else
    ["Error: Failed to generate response (Status: " ++ toString httpStatus ++ ")"]

/-- `ModelManager.generate_response` (`model_manager.py` lines 162-205).
`runtimeResponse` is the optional `response` field of the runtime's JSON
reply (`data.get("response", "No response generated")`). -/
def generate_response (checkOk startOk : Bool) (httpStatus : Nat)
    (runtimeResponse : Option String) : String :=
  if checkOk = false ∧ startOk = false then
    "Error: Ollama service is not available"
  else if httpStatus = 200 then
    runtimeResponse.getD "No response generated"
  else
    "Error: Failed to generate response (Status: " ++ toString httpStatus ++ ")"

/-- Rendering of one history message inside `_prepare_prompt`
(`model_manager.py` lines 271-277): `"User: {content}\n"` for role
`"user"`, `"Assistant: {content}\n"` for role `"assistant"`, nothing for
any other role. -/
def renderMessage (m : Message) : String :=
  if m.role = "user" then
    "User: " ++ m.content ++ "\n"
  else if m.role = "assistant" then
    "Assistant: " ++ m.content ++ "\n"
  else
    ""

/-- The `context +=` accumulation loop over the windowed history. -/
def renderHistory : List Message → String
  | [] => ""
  | m :: rest => renderMessage m ++ renderHistory rest

/-- `ModelManager._prepare_prompt` (`model_manager.py` lines 261-281):
preamble `"System: {system_prompt}\n\n"`, then the last 10 history
messages (`conversation_history[-10:]`, which is `drop (length - 10)`),
then `"User: {message}\nAssistant: "`. -/
def prepare_prompt (systemPrompt message : String) (history : List Message) : String :=
  "System: " ++ systemPrompt ++ "\n\n"
    ++ renderHistory (history.drop (history.length - 10))
    ++ "User: " ++ message ++ "\nAssistant: "

/-- Result of `switch_model`: the returned boolean together with the value of
`self.current_model` after the call. -/
structure SwitchResult where
  ok : Bool
  current : String
deriving Repr, DecidableEq

/-- The commit test of `switch_model` (`model_manager.py` line 150):
`if "successfully" in test_response.lower() or test_response:` — the second
disjunct is Python string truthiness, i.e. non-emptiness. -/
def switchCommitTest (testResponse : String) : Bool :=
  containsLowered "successfully" testResponse || !testResponse.isEmpty

/-- `ModelManager.switch_model` (`model_manager.py` lines 133-160).
`available` models `get_available_models()`, `pullOk` the result of
`pull_model(model_name)` when attempted, `testResponse` the string returned
by the probe `generate_response(...)`, `current` the value of
`self.current_model` before the call.  The `except` arm (return `False`
without updating `current_model`) is outside this exception-free
embedding. -/
def switch_model (available : List String) (pullOk : Bool) (testResponse : String)
    (current name : String) : SwitchResult :=
  if available.contains name = false ∧ pullOk = false then
    { ok := false, current := current }
  else if switchCommitTest testResponse then
    { ok := true, current := name }
  else
    { ok := false, current := current }

/-- `ModelManager.optimize_model_selection` (`model_manager.py` lines
394-418) with `Config.get_model_for_task` (`config.py` lines 216-218)
already resolved to the preference list `prefs`: return the first entry of
`prefs` contained in `available`; else, if `prefs` is non-empty, pull its
first entry and return it when the pull succeeds; else return the current
model. -/
def optimize_model_selection (prefs available : List String) (pullOk : Bool)
    (current : String) : String :=
  match prefs.find? (fun m => available.contains m) with
  | some m => m
  | none =>
    match prefs with
    | [] => current
    | first :: _ => if pullOk then first else current

/-- The session store of `main.py` (`ConnectionManager.sessions`): a dict
from session id to ordered message list, modelled as an association list
with unique keys. -/
abbrev SessionStore : Type := List (String × List Message)

/-- `GET /sessions/{session_id}` (`main.py` lines 398-404):
`manager.sessions.get(session_id, [])`. -/
def get_session_history (store : SessionStore) (sid : String) : List Message :=
  match List.find? (fun p => p.1 == sid) store with
  | some p => p.2
  | none => []

/-- Key-membership test `session_id in manager.sessions`. -/
def hasSession (store : SessionStore) (sid : String) : Bool :=
  List.any store (fun p => p.1 == sid)

/-- `DELETE /sessions/{session_id}` (`main.py` lines 406-411): delete the
binding when the id is present (`del manager.sessions[session_id]`),
otherwise leave the store alone; the endpoint unconditionally returns
`{"success": True, "message": "Session cleared"}`. -/
def clear_session (store : SessionStore) (sid : String) :
    SessionStore × Bool × String :=
  (if hasSession store sid then List.filter (fun p => p.1 != sid) store else store,
   true, "Session cleared")

/-- Result of one local-path call of the chat endpoint: the JSON `response`
field and the session history after the call. -/
structure ChatResult where
  response : String
  session : List Message
deriving Repr, DecidableEq

/-- The local (offline) path of `chat_endpoint` (`main.py` lines 128-170)
for one session's history `session`: append the user turn, call
`generate_response` on the updated history, append the assistant turn
carrying the returned text, and return that text.  `ts1`/`ts2` are the two
`datetime.now().isoformat()` timestamps. -/
def chat_endpoint_local (checkOk startOk : Bool) (httpStatus : Nat)
    (runtimeResponse : Option String) (ts1 ts2 : String)
    (session : List Message) (message : String) : ChatResult :=
  let session1 := session ++ [{ role := "user", content := message, timestamp := ts1 }]
  let resp := generate_response checkOk startOk httpStatus runtimeResponse
  { response := resp,
    session := session1 ++ [{ role := "assistant", content := resp, timestamp := ts2 }] }

/-- The prompt string the chat endpoint's local path sends to the runtime:
`chat_endpoint` first appends the user turn to the session (`main.py` line
138) and then `generate_response` calls `_prepare_prompt(message, history)`
on that same, already-extended history (`model_manager.py` line 178). -/
def chat_prompt (systemPrompt : String) (session : List Message)
    (message ts : String) : String :=
  prepare_prompt systemPrompt message
    (session ++ [{ role := "user", content := message, timestamp := ts }])

/-! Interleaving model of concurrent `start_ollama` calls.

`ModelManager.start_ollama` (`model_manager.py` lines 38-66) runs on the
asyncio event loop; `await self.check_ollama_status()` on line 42 is a
suspension point, and the `subprocess.Popen` spawn on lines 47-56 holds no
lock of any kind.  Each concurrent caller is therefore a thread that first
observes the runtime status (atomic read at its suspension point) and then,
when it observed the runtime as down, spawns a process.  The model lets a
spawn bring the runtime up, the most favourable assumption for the code. -/

/-- Program counter of one `start_ollama` caller: before the initial health
check, after it (remembering its result), or returned. -/
inductive StartPC where
  | init : StartPC
  | checked (sawUp : Bool) : StartPC
  | finished : StartPC
deriving Repr, DecidableEq

/-- Shared state: whether the runtime answers its health check, and how many
`ollama serve` processes have been spawned. -/
structure StartState where
  runtimeUp : Bool
  spawnCount : Nat
deriving Repr, DecidableEq

/-- One atomic step of one `start_ollama` caller. -/
def startStep (s : StartState) : StartPC → StartState × StartPC
  | StartPC.init => (s, StartPC.checked s.runtimeUp)
  | StartPC.checked true => (s, StartPC.finished)
  | StartPC.checked false =>
    ({ s with spawnCount := s.spawnCount + 1, runtimeUp := true }, StartPC.finished)
  | StartPC.finished => (s, StartPC.finished)

/-- Run a schedule (a list of caller indices) over a pool of concurrent
`start_ollama` callers. -/
def runStartSchedule (s : StartState) (pcs : List StartPC) :
    List Nat → StartState × List StartPC
  | [] => (s, pcs)
  | tid :: rest =>
    match pcs.get? tid with
    | none => runStartSchedule s pcs rest
    | some pc =>
      let (s', pc') := startStep s pc
      runStartSchedule s' (pcs.set tid pc') rest

/-! Helper lemmas. -/

/-- Once `pull_model` reaches its event loop, the loop can only return
`true`: a success event returns `true` immediately, and an exhausted stream
hits the `return True` on line 127. -/
theorem pullLoop_eq_true (lines : List PullLine) : pullLoop lines = true := by
  induction lines with
  | nil => rfl
  | cons l rest ih =>
    cases l with
    | empty => simpa [pullLoop] using ih
    | malformed => simpa [pullLoop] using ih
    | event status =>
      simp only [pullLoop]
      split
      · rfl
      · exact ih

/-- Claim C1, counterexample: with the runtime reachable and HTTP 200,
`pull_model` applied to the event stream
`{"status":"downloading"}`, `{"status":"verifying"}` — the claimed input on
which it must return false — does not return false. -/
theorem C1_pull_no_success_counterexample :
    pull_model true true 200
      [PullLine.event (some "downloading"), PullLine.event (some "verifying")] ≠ false := by
  decide

/-- Claim C1, amended: `pull_model` returns true exactly when the runtime is
reachable (or starts successfully) and the HTTP response is 200 — for every
event stream, including one that ends without any "success" status event;
an explicit success event is never required. -/
theorem C1_pull_model_characterization (checkOk startOk : Bool) (httpStatus : Nat)
    (lines : List PullLine) :
    pull_model checkOk startOk httpStatus lines = true ↔
      ((checkOk = true ∨ startOk = true) ∧ httpStatus = 200) := by
  cases checkOk <;> cases startOk <;>
    by_cases h : httpStatus = 200 <;>
      simp [pull_model, pullLoop_eq_true, h]

/-- Claim C3, counterexample: the stream
`{"response":"a","done":false}`, `{"response":"b","done":false}`,
`{"response":"","done":true}` does not yield exactly the chunks
`["a", "b"]` — the terminal event's `response` field is yielded too. -/
theorem C3_stream_chunks_counterexample :
    generate_streaming_response true true 200
      [StreamLine.event (some "a") false, StreamLine.event (some "b") false,
       StreamLine.event (some "") true] ≠ ["a", "b"] := by
  decide

/-- Claim C3, amended: the stream
`{"response":"a","done":false}`, `{"response":"b","done":false}`,
`{"response":"","done":true}` yields exactly the chunks `["a", "b", ""]` —
the terminal event's `response` field (here empty) is yielded before the
loop breaks; no chunk is emitted after the terminal event (everything past
the first `done` event is ignored), and a malformed line is silently
discarded while the stream continues. -/
theorem C3_streaming_behaviour :
    generate_streaming_response true true 200
        [StreamLine.event (some "a") false, StreamLine.event (some "b") false,
         StreamLine.event (some "") true] = ["a", "b", ""] ∧
    (∀ rest, streamLoop (StreamLine.malformed :: rest) = streamLoop rest) ∧
    (∀ (pre : List StreamLine) (r : Option String) (post : List StreamLine),
      streamLoop (pre ++ StreamLine.event r true :: post) =
        streamLoop (pre ++ [StreamLine.event r true])) := by
  refine ⟨by decide, fun rest => rfl, fun pre r post => ?_⟩
  induction pre with
  | nil => cases r <;> rfl
  | cons l pre ih =>
    cases l with
    | empty => simpa [streamLoop] using ih
    | malformed => simpa [streamLoop] using ih
    | event resp dn =>
      simp only [List.cons_append, streamLoop]
      cases dn with
      | true => rfl
      | false => simp [ih]

/-- The commit test of `switch_model` is Python string truthiness in
disguise: it accepts exactly the non-empty probe responses, error strings
included. -/
theorem switchCommitTest_iff (resp : String) : switchCommitTest resp = true ↔ resp ≠ "" := by
  constructor
  · intro h heq
    subst heq
    exact absurd h (by decide)
  · intro h
    have : resp.isEmpty = false := by
      cases hie : resp.isEmpty
      · rfl
      · exact absurd ((String.isEmpty_iff resp).mp hie) h
    simp [switchCommitTest, this]

/-- Claim C2, counterexample: with model `"x"` present in the inventory and
the probe generation returning the error string
`"Error: Ollama service is not available"` — a non-empty error response, on
which the claim requires the switch not to commit — `switch_model` returns
true and moves the current-model pointer to `"x"`. -/
theorem C2_error_probe_commits_counterexample :
    (switch_model ["x"] true "Error: Ollama service is not available" "m" "x").ok = true ∧
    (switch_model ["x"] true "Error: Ollama service is not available" "m" "x").current
      = "x" := by
  decide

/-- Claim C2, amended: `switch_model name` returns true and moves the
current-model pointer to `name` exactly when `name` is present in the
inventory (or the pull succeeds) and the probe generation returns any
non-empty string — error strings included; only an empty probe response
blocks the commit, and a non-committing call leaves the pointer
unchanged. -/
theorem C2_switch_commit_characterization (available : List String) (pullOk : Bool)
    (resp current name : String) :
    ((switch_model available pullOk resp current name).ok = true ↔
      ((name ∈ available ∨ pullOk = true) ∧ resp ≠ "")) ∧
    ((switch_model available pullOk resp current name).ok = true →
      (switch_model available pullOk resp current name).current = name) ∧
    ((switch_model available pullOk resp current name).ok = false →
      (switch_model available pullOk resp current name).current = current) := by
  by_cases hmem : name ∈ available <;> cases pullOk <;> by_cases hr : resp = ""
  all_goals
    first
      | (subst hr
         simp [switch_model, hmem, (by decide : switchCommitTest "" = false)])
      | (have hct := (switchCommitTest_iff resp).mpr hr
         simp [switch_model, hmem, hct, hr])

/-- Claim C2 witness: a present model with the non-empty probe response
`"ack"` commits the switch (pointer moves to `"x"`), while a present model
with an empty probe response does not (pointer stays at `"m"`). -/
theorem C2_switch_commit_witness :
    (switch_model ["x"] false "ack" "m" "x").current = "x" ∧
    (switch_model ["x"] false "" "m" "x").current = "m" :=
  ⟨(C2_switch_commit_characterization ["x"] false "ack" "m" "x").2.1 (by decide),
   (C2_switch_commit_characterization ["x"] false "" "m" "x").2.2 (by decide)⟩

/-- Claim C4: when `name` is absent from the inventory and the attempted
pull reports failure, `switch_model` returns false and the current-model
pointer holds the same value after the call as before it. -/
theorem C4_failed_pull_leaves_current_unchanged (available : List String)
    (resp current name : String) (h : name ∉ available) :
    switch_model available false resp current name = { ok := false, current := current } := by
  simp [switch_model, h]

/-- Claim C4 witness: switching to `"x"` with an empty inventory and a
failing pull returns false and keeps the current model `"m"`. -/
theorem C4_failed_pull_witness :
    switch_model [] false "resp" "m" "x" = { ok := false, current := "m" } :=
  C4_failed_pull_leaves_current_unchanged [] "resp" "m" "x" (by decide)

/-- Claim C5: prompt assembly is a pure function that windows the history to
exactly its last 10 messages when 10 or more exist — the window has length
exactly 10 (never 11, never fewer), it is the final segment of the history,
the assembled context is the preamble followed by the rendered window
followed by the new user turn and the trailing empty assistant cue, and
every windowed user/assistant message is rendered as
`"<Role>: <content>"` on its own line. -/
theorem C5_prompt_windowing (sp msg : String) (hist : List Message)
    (hlen : 10 ≤ hist.length)
    (hroles : ∀ m ∈ hist, m.role = "user" ∨ m.role = "assistant") :
    (hist.drop (hist.length - 10)).length = 10 ∧
    hist.take (hist.length - 10) ++ hist.drop (hist.length - 10) = hist ∧
    prepare_prompt sp msg hist =
      "System: " ++ sp ++ "\n\n"
        ++ renderHistory (hist.drop (hist.length - 10))
        ++ "User: " ++ msg ++ "\nAssistant: " ∧
    ∀ m ∈ hist.drop (hist.length - 10),
      renderMessage m =
        (if m.role = "user" then "User: " else "Assistant: ") ++ m.content ++ "\n" := by
  refine ⟨?_, List.take_append_drop _ _, rfl, ?_⟩
  · rw [List.length_drop]
    omega
  · intro m hm
    rcases hroles m (List.mem_of_mem_drop hm) with h | h
    · simp [renderMessage, h]
    · simp [renderMessage, h]

/-- A concrete 15-message history (alternating user/assistant roles) used to
witness claim C5. -/
def histFifteen : List Message :=
  (List.range 15).map fun i =>
    { role := if i % 2 = 0 then "user" else "assistant",
      content := toString i, timestamp := "t" }

/-- Claim C5 witness: on a concrete history of 15 messages the window has
length exactly 10 and the assembled prompt is the preamble plus the
rendered window plus the new turn and assistant cue. -/
theorem C5_prompt_windowing_witness :
    (histFifteen.drop (histFifteen.length - 10)).length = 10 ∧
    prepare_prompt "preamble" "hello" histFifteen =
      "System: " ++ "preamble" ++ "\n\n"
        ++ renderHistory (histFifteen.drop (histFifteen.length - 10))
        ++ "User: " ++ "hello" ++ "\nAssistant: " :=
  ⟨(C5_prompt_windowing "preamble" "hello" histFifteen (by decide) (by decide)).1,
   (C5_prompt_windowing "preamble" "hello" histFifteen (by decide) (by decide)).2.2.1⟩

/-- Claim C6: a turn on the local path while the runtime is down
(`check_ollama_status` false) and failing to start (`start_ollama` false)
returns the non-empty error string
`"Error: Ollama service is not available"` as the response — not a thrown
fault — and the session afterwards holds the appended user turn followed by
an appended assistant turn carrying that error text, whatever the HTTP
oracle and prior session contents were. -/
theorem C6_down_runtime_turn (httpStatus : Nat) (rtResp : Option String)
    (ts1 ts2 : String) (session : List Message) (msg : String) :
    (chat_endpoint_local false false httpStatus rtResp ts1 ts2 session msg).response =
      "Error: Ollama service is not available" ∧
    (chat_endpoint_local false false httpStatus rtResp ts1 ts2 session msg).response ≠ "" ∧
    (chat_endpoint_local false false httpStatus rtResp ts1 ts2 session msg).session =
      session ++
        [{ role := "user", content := msg, timestamp := ts1 },
         { role := "assistant", content := "Error: Ollama service is not available",
           timestamp := ts2 }] := by
  refine ⟨rfl, ?_, ?_⟩
  · show "Error: Ollama service is not available" ≠ ""
    decide
  · simp [chat_endpoint_local, generate_response]

/-- Claim C7: two concurrent `start_ollama` callers, both starting while the
runtime is down, under the schedule in which both health checks complete
before either spawn (exactly the interleaving asyncio permits at the
`await self.check_ollama_status()` suspension point), spawn two runtime
processes — the code has no lock, so the single-flight requirement is
violated. -/
theorem C7_duplicate_spawn_schedule :
    (runStartSchedule { runtimeUp := false, spawnCount := 0 }
        [StartPC.init, StartPC.init] [0, 1, 0, 1]).1.spawnCount = 2 := by
  decide

/-- Skipping a prefix on which the search predicate fails. -/
theorem find?_append_of_forall_false {α : Type} (p : α → Bool) (l₁ l₂ : List α)
    (h : ∀ a ∈ l₁, p a = false) : (l₁ ++ l₂).find? p = l₂.find? p := by
  induction l₁ with
  | nil => rfl
  | cons a t ih =>
    rw [List.cons_append,
      List.find?_cons_of_neg _ (by simp [h a (List.mem_cons_self a t)]),
      ih (fun x hx => h x (List.mem_cons_of_mem a hx))]

/-- Claim C8: with a non-empty preference list `first :: rest`, the
model-selection helper returns the first preference-list entry present in
the available-model listing (every entry before it being absent); when no
entry is present it returns `first` when the pull of `first` succeeds and
falls back to the current model otherwise. -/
theorem C8_optimize_model_selection (first : String) (rest available : List String)
    (pullOk : Bool) (current : String) :
    (∀ pre m post, first :: rest = pre ++ m :: post →
      (∀ a ∈ pre, available.contains a = false) → available.contains m = true →
      optimize_model_selection (first :: rest) available pullOk current = m) ∧
    ((∀ m ∈ first :: rest, available.contains m = false) →
      optimize_model_selection (first :: rest) available pullOk current =
        if pullOk then first else current) := by
  constructor
  · intro pre m post hsplit hpre hm
    have hfind : (first :: rest).find? (fun x => available.contains x) = some m := by
      rw [hsplit, find?_append_of_forall_false _ pre _ hpre,
        List.find?_cons_of_pos _ hm]
    simp only [optimize_model_selection]
    rw [hfind]
  · intro hall
    have hfind : (first :: rest).find? (fun x => available.contains x) = none := by
      rw [List.find?_eq_none]
      intro x hx
      simpa using hall x hx
    simp only [optimize_model_selection]
    rw [hfind]

/-- Claim C8 witness: with preferences `["a", "b"]`, the helper returns
`"b"` when only `"b"` is available (the first present entry, pull not
consulted), and falls back to the current model `"cur"` when nothing is
available and the pull fails. -/
theorem C8_optimize_model_selection_witness :
    optimize_model_selection ["a", "b"] ["b"] false "cur" = "b" ∧
    optimize_model_selection ["a", "b"] [] false "cur" = "cur" :=
  ⟨(C8_optimize_model_selection "a" ["b"] ["b"] false "cur").1
      ["a"] "b" [] rfl (by decide) (by decide),
   ((C8_optimize_model_selection "a" ["b"] [] false "cur").2 (by decide)).trans rfl⟩

/-- Rendering distributes over history concatenation. -/
theorem renderHistory_append (l₁ l₂ : List Message) :
    renderHistory (l₁ ++ l₂) = renderHistory l₁ ++ renderHistory l₂ := by
  induction l₁ with
  | nil => simp [renderHistory]
  | cons m t ih => simp [renderHistory, ih, String.append_assoc]

/-- Claim C9 (implicit double inclusion): on the chat endpoint's local path
the new user message is rendered twice in the prompt sent to the runtime —
the dispatcher appends the user turn to the session before invoking
generation on that same history, so the prompt assembler renders it as the
last line of the 10-message window and then appends the new message once
more as the explicit new turn; the two occurrences are adjacent. -/
theorem C9_user_message_duplicated (sp : String) (session : List Message)
    (msg ts : String) :
    ∃ s1, chat_prompt sp session msg ts =
      s1 ++ ("User: " ++ msg ++ "\n") ++ ("User: " ++ msg ++ "\nAssistant: ") := by
  have hk : (session ++ [({ role := "user", content := msg, timestamp := ts } : Message)]).length - 10
      ≤ session.length := by
    rw [List.length_append]
    simp only [List.length_singleton]
    omega
  refine ⟨"System: " ++ sp ++ "\n\n"
      ++ renderHistory (session.drop
        ((session ++ [({ role := "user", content := msg, timestamp := ts } : Message)]).length - 10)), ?_⟩
  have hlit : ∀ s : String, ("\n" : String) ++ ("User: " ++ s) = "\nUser: " ++ s := by
    intro s
    rw [← String.append_assoc]
    rfl
  rw [chat_prompt, prepare_prompt, List.drop_append_of_le_length hk,
    renderHistory_append]
  simp [renderHistory, renderMessage, String.append_assoc, hlit]

/-- Deleting `sid` removes every binding with that key from the store. -/
theorem hasSession_filter_self (store : SessionStore) (sid : String) :
    hasSession (List.filter (fun p => p.1 != sid) store) sid = false := by
  induction store with
  | nil => rfl
  | cons e t ih =>
    rcases e with ⟨k, v⟩
    rw [List.filter_cons]
    by_cases hk : k = sid
    · subst hk
      rw [if_neg (by simp)]
      exact ih
    · rw [if_pos (by simp [hk])]
      have ih' := ih
      simp only [hasSession] at ih' ⊢
      simp [List.any_cons, hk, ih']

/-- Deleting the bindings of `sid` does not disturb the lookup of any other
session id. -/
theorem find?_filter_other (store : SessionStore) (sid other : String)
    (h : other ≠ sid) :
    List.find? (fun p => p.1 == other) (List.filter (fun p => p.1 != sid) store) =
      List.find? (fun p => p.1 == other) store := by
  induction store with
  | nil => rfl
  | cons e t ih =>
    rcases e with ⟨k, v⟩
    rw [List.filter_cons]
    by_cases hk : k = sid
    · subst hk
      rw [if_neg (by simp),
        List.find?_cons_of_neg _
          (by simp only [beq_iff_eq]; exact fun hko => h hko.symm)]
      exact ih
    · rw [if_pos (by simp [hk])]
      by_cases ho : k = other
      · rw [List.find?_cons_of_pos _ (by simp [ho]),
          List.find?_cons_of_pos _ (by simp [ho])]
      · rw [List.find?_cons_of_neg _ (by simp [ho]),
          List.find?_cons_of_neg _ (by simp [ho])]
        exact ih

/-- Claim C10: clearing a session is total and idempotent — for every store
and id, the endpoint reports success, clearing an id that is not present
leaves the store untouched, clearing the same id twice equals clearing it
once, and every other session's history is unchanged by the clear. -/
theorem C10_clear_session_idempotent_total (store : SessionStore) (sid : String) :
    (clear_session store sid).2.1 = true ∧
    (hasSession store sid = false → (clear_session store sid).1 = store) ∧
    (clear_session (clear_session store sid).1 sid).1 = (clear_session store sid).1 ∧
    (∀ other, other ≠ sid →
      get_session_history (clear_session store sid).1 other =
        get_session_history store other) := by
  refine ⟨rfl, ?_, ?_, ?_⟩
  · intro h
    simp [clear_session, h]
  · cases hb : hasSession store sid with
    | true => simp [clear_session, hb, hasSession_filter_self]
    | false => simp [clear_session, hb]
  · intro other hother
    cases hb : hasSession store sid with
    | true =>
      simp [clear_session, hb, get_session_history,
        find?_filter_other store sid other hother]
    | false => simp [clear_session, hb]

/-- Claim C10 witness: on a concrete two-session store, clearing `"s1"`
reports success, is idempotent, leaves `"s2"` intact, and clearing the
unknown id `"zzz"` leaves the store untouched. -/
theorem C10_clear_session_witness :
    (clear_session [("s1", []), ("s2", [])] "s1").2.1 = true ∧
    (clear_session (clear_session [("s1", []), ("s2", [])] "s1").1 "s1").1 =
      (clear_session [("s1", []), ("s2", [])] "s1").1 ∧
    get_session_history (clear_session [("s1", []), ("s2", [])] "s1").1 "s2" =
      get_session_history [("s1", []), ("s2", [])] "s2" ∧
    (clear_session [("s1", []), ("s2", [])] "zzz").1 = [("s1", []), ("s2", [])] :=
  ⟨(C10_clear_session_idempotent_total [("s1", []), ("s2", [])] "s1").1,
   (C10_clear_session_idempotent_total [("s1", []), ("s2", [])] "s1").2.2.1,
   (C10_clear_session_idempotent_total [("s1", []), ("s2", [])] "s1").2.2.2 "s2"
     (by decide),
   (C10_clear_session_idempotent_total [("s1", []), ("s2", [])] "zzz").2.1 (by decide)⟩

end Jarves
